import Mathlib

/-!
Verification of the ranking-lookup-and-DOM-annotation pipeline of the
lb-list-to-json userscripts.

The embedding translates, from the source files:
  * the page-number computation `parseInt(ranking / 100) + 1` that appears
    in `addIcon`, `addCrown`, `addActorIcon` and `createTop250Element`;
  * the dataset scan of `getData` (an `Array.prototype.find` whose callback
    never returns a value, hence visits every element);
  * the strict-equality matching `item.Date === id || item.id === id`
    (and the `item.Date === id` variant of the older script);
  * the badge construction of `addIcon` (DOM fragment building);
  * the insertion bodies of the `MutationObserver` callbacks of `addIcon`
    and `addCrown`, and the observer life cycle (batch processing followed
    by `disconnect`);
  * the actor lookup of `getActors` / `addActorIcon`;
  * the `window` load handler (identifier read and fan-out of fetches).

Machine integers of the source are JavaScript numbers; film identifiers are
integers well inside the exact range, so they are modelled as `Int`, with an
explicit `nan` constructor for the `parseInt` failure value, and the strict
equality `===` modelled so that `nan` compares unequal to everything.
-/

/-! Definitions of the embedding, in dependency order: page numbers,
dataset rows and the scan, DOM fragments, container insertion bodies,
the observer state machine, the category fan-out, the actor lookup, and
the load handler. -/

/-- Page-number computation used by every badge deep link:
`var page = parseInt(ranking / 100) + 1`.  For the positive, small ranks the
scripts handle, `parseInt` of the quotient truncates, i.e. computes the floor
of `ranking / 100`, which on `Nat` is division. -/
def pageOf (ranking : Nat) : Nat :=
  ranking / 100 + 1

/-- JavaScript values relevant to the dataset scan: a missing field
(`undefined`), an integer number, or the `NaN` produced by a failed
`parseInt`. -/
inductive JsVal where
  | undef : JsVal
  | num : Int → JsVal
  | nan : JsVal
deriving DecidableEq, Repr

/-- JavaScript strict equality `===` restricted to the values above:
numbers compare by value, `undefined === undefined` is true, and `NaN`
compares unequal to everything, itself included. -/
def jsStrictEq : JsVal → JsVal → Bool
  | JsVal.num a, JsVal.num b => a == b
  | JsVal.undef, JsVal.undef => true
  | _, _ => false

/-- One row of a ranking source, as `getData` reads it: the legacy `Date`
field and the newer `id` field, each possibly absent. -/
structure Entry where
  Date : JsVal
  id : JsVal
deriving DecidableEq, Repr

/-- The match test of `getData` in the current script:
`item.Date === id || item.id === id`. -/
def entryMatches (e : Entry) (v : JsVal) : Bool :=
  jsStrictEq e.Date v || jsStrictEq e.id v

/-- The match test of the older script (part_000): `item.Date === id`. -/
def entryMatchesDate (e : Entry) (v : JsVal) : Bool :=
  jsStrictEq e.Date v

/-- The dataset scan of `getData`, parameterised by the match test.  The
source iterates with `out.find(function(item, i){ if (...) { add...(i+1) } })`;
the callback ends without a `return`, so it yields `undefined` (falsy) at
every element and `find` therefore visits the whole array.  The embedding
returns, in order, the 1-based rank `i + 1` passed to the badge-construction
call at every matching index. -/
def scanCallsAux (f : Entry → Bool) : List Entry → Nat → List Nat
  | [], _ => []
  | e :: rest, i => (if f e then [i + 1] else []) ++ scanCallsAux f rest (i + 1)

/-- Ranks at which the current script (part_001) invokes badge construction
for identifier `v` on dataset `out`. -/
def scanCalls (out : List Entry) (v : JsVal) : List Nat :=
  scanCallsAux (fun e => entryMatches e v) out 0

/-- Ranks at which the older script (part_000) invokes badge construction. -/
def scanCallsDate (out : List Entry) (v : JsVal) : List Nat :=
  scanCallsAux (fun e => entryMatchesDate e v) out 0

/-- A DOM node as the badge builders manipulate it: an element with a tag, an
ordered list of attribute writes, an ordered list of style writes, and
children; or a text node.  Attribute and style lists record writes in order;
a later write of the same key wins on lookup, matching `setAttribute` and
style-property assignment. -/
inductive DomNode where
  | element : String → List (String × String) → List (String × String) →
      List DomNode → DomNode
  | text : String → DomNode

/-- `document.createElement(tag)`: a fresh element with no attributes, no
styles and no children. -/
def createElement (tag : String) : DomNode :=
  DomNode.element tag [] [] []

/-- `node.setAttribute(key, value)` (also used for property writes such as
`className` and `src`, which reflect to attributes): appends the write. -/
def setAttr (n : DomNode) (key value : String) : DomNode :=
  match n with
  | DomNode.element t a s c => DomNode.element t (a ++ [(key, value)]) s c
  | DomNode.text s => DomNode.text s

/-- A style-property assignment such as `node.style.float = "left"`. -/
def setStyleProp (n : DomNode) (key value : String) : DomNode :=
  match n with
  | DomNode.element t a s c => DomNode.element t a (s ++ [(key, value)]) c
  | DomNode.text s => DomNode.text s

/-- `parent.appendChild(child)` for a freshly created child (the only use in
the badge builders): appends to the child list. -/
def appendChildNode (n child : DomNode) : DomNode :=
  match n with
  | DomNode.element t a s c => DomNode.element t a s (c ++ [child])
  | DomNode.text s => DomNode.text s

/-- Display parameters of one ranking category, as the `parameters` object
literals of `getData` build them: the list URL prefix, the icon URL, and the
`size` object whose entries (`Object.entries` order = literal order) are
written onto the image; the `style` key some categories carry travels in the
same list. -/
structure IconParams where
  list : String
  icon : String
  size : List (String × String)

/-- The badge-construction part of `addIcon` (part_001 lines 368-385),
line by line: the wrapping `div`, the anchor with the page deep link and
font size, the image with `src`, the `size` entries, the float and margin
styles, then the anchor children (image, rank text node) and the `div`
child (anchor).  The observer that later inserts the fragment is modelled
separately. -/
def addIconFragment (ranking : Nat) (p : IconParams) : DomNode :=
  let div_mov := createElement "div"
  let div_mov := setAttr div_mov "class" "production-statistic"
  let a_mov := createElement "a"
  let page := pageOf ranking
  let a_mov := setAttr a_mov "href" (p.list ++ toString page)
  let a_mov := setStyleProp a_mov "fontSize" ".92307692rem"
  let movie := createElement "img"
  let movie := setAttr movie "src" p.icon
  let movie := p.size.foldl (fun m kv => setAttr m kv.1 kv.2) movie
  let movie := setStyleProp movie "float" "left"
  let movie := setStyleProp movie "marginLeft" "-1px"
  let movie := setStyleProp movie "marginRight" "3px"
  let a_mov := appendChildNode a_mov movie
  let a_mov := appendChildNode a_mov (DomNode.text (toString ranking))
  appendChildNode div_mov a_mov

/-- Children of the `production-statistic-list` container, as the insertion
callbacks see them: the host page rows (`div`s without the crown marker
class), the crown badge `div` (class `production-statistic -top250`, the only
badge carrying a category marker class) and flag-icon badge `div`s (class
`production-statistic`, identified here by their category number and rank,
since the markup itself carries no category-specific class). -/
inductive PElem where
  | host : PElem
  | crownBadge : Nat → PElem
  | iconBadge : Nat → Nat → PElem
deriving DecidableEq, Repr

/-- Whether an element is found by `document.getElementsByClassName("-top250")`:
only the crown badge carries that class. -/
def isTop250 : PElem → Bool
  | PElem.crownBadge _ => true
  | _ => false

/-- The insertion body of the `addCrown` observer callback (part_001 lines
355-362) on the container child list: if the container holds more than one
`div` (every modelled child is a `div`), and no element of class `-top250`
exists, append the crown badge; otherwise leave the container unchanged. -/
def crownInsertBody (s : List PElem) (r : Nat) : List PElem :=
  if 1 < s.length then
    if s.any isTop250 then s else s ++ [PElem.crownBadge r]
  else s

/-- The insertion body of the `addIcon` observer callback (part_001 lines
393-397) on the container child list: if the container holds more than one
`div`, append the badge — with no check of any kind for an already-present
badge. -/
def iconInsertBody (s : List PElem) (cat r : Nat) : List PElem :=
  if 1 < s.length then s ++ [PElem.iconBadge cat r] else s

/-- Number of flag-icon badges of category `cat` in the container. -/
def countIconCat (cat : Nat) (s : List PElem) : Nat :=
  (s.filter fun e =>
    match e with
    | PElem.iconBadge c _ => c == cat
    | _ => false).length

/-- Number of crown badges in the container. -/
def countCrown (s : List PElem) : Nat :=
  (s.filter isTop250).length

/-- A node delivered in a mutation record: the callbacks skip every node
whose `nodeType` is not `ELEMENT_NODE`. -/
inductive BNode where
  | element : BNode
  | other : BNode
deriving DecidableEq, Repr

/-- State of one pending badge: the child list of the target container
(children identified by node identity, since `appendChild` moves an
already-inserted node instead of copying it) and whether the observer is
still connected. -/
structure MState where
  container : List Nat
  connected : Bool
deriving DecidableEq, Repr

/-- One iteration of the inner loops of the observer callback (part_001
lines 388-399 for `addIcon`, 350-364 for `addCrown`), for badge node `b`
and readiness guard `guard` (`addIcon` appends whenever the container holds
more than one `div`; `addCrown` additionally requires that no `-top250`
element exists — the `guard` parameter covers both).  Non-element nodes are
skipped; on an element node, if the container holds more than one child the
callback possibly appends (`appendChild` moves `b` to the end, so an
existing copy is erased first) and always disconnects; below the threshold
nothing happens.  The loop body ignores the connected flag because
`disconnect` does not stop the iteration already under way. -/
def stepNode (b : Nat) (guard : List Nat → Bool) (s : MState) (n : BNode) :
    MState :=
  match n with
  | BNode.other => s
  | BNode.element =>
      if 1 < s.container.length then
        { container :=
            if guard s.container then s.container.erase b ++ [b]
            else s.container,
          connected := false }
      else s

/-- One observer callback invocation: the delivered mutation batch is
processed node by node. -/
def processBatch (b : Nat) (guard : List Nat → Bool) (s : MState)
    (batch : List BNode) : MState :=
  batch.foldl (stepNode b guard) s

/-- The observer life cycle across successive mutation batches: a batch is
delivered (and processed) only while the observer is connected;
`disconnect` suppresses all later deliveries. -/
def runBatches (b : Nat) (guard : List Nat → Bool) :
    MState → List (List BNode) → MState
  | s, [] => s
  | s, batch :: rest =>
      runBatches b guard
        (if s.connected then processBatch b guard s batch else s) rest

/-- Outcome class of one category fetch-and-parse: the promise chain of
`getData` rejects either at `fetch` (network error) or at `res.json()`
(non-JSON body, e.g. a non-200 error page). -/
inductive FetchErr where
  | network : FetchErr
  | parseFail : FetchErr
deriving DecidableEq, Repr

/-- One category pipeline of the load handler: `getData` fetches the
dataset of category `t` and, when the fetch-and-parse succeeds, scans it;
when the chain rejects, the continuation holding the scan never runs, so
the category produces no badge-construction calls, and the rejection is
consumed by the event loop without unwinding any other code (each `then`
callback runs as its own task). -/
def categoryCalls (oracle : Nat → Except FetchErr (List Entry)) (v : JsVal)
    (t : Nat) : List Nat :=
  match oracle t with
  | Except.error _ => []
  | Except.ok out => scanCalls out v

/-- Concrete fetch outcomes for the C4 witness: category 2 rejects, every
other category parses to a one-row dataset holding film `7`. -/
def oracleX : Nat → Except FetchErr (List Entry) :=
  fun t =>
    if t = 2 then Except.error FetchErr.network
    else Except.ok [⟨JsVal.undef, JsVal.num 7⟩]

/-- Unicode canonical composition restricted to the code-point fragment the
development uses: the decomposed pair U+0065 LATIN SMALL LETTER E followed
by U+0301 COMBINING ACUTE ACCENT composes to U+00E9; every other code point
passes through.  This is exactly the behaviour of the built-in
`normalize("NFC")` the source calls, on strings drawn from this fragment.
Strings are lists of code points. -/
def nfcCompose : List Nat → List Nat
  | 101 :: 769 :: rest => 233 :: nfcCompose rest
  | c :: rest => c :: nfcCompose rest
  | [] => []

/-- `Array.prototype.indexOf` on the name index, starting at index `i`:
first entry strictly equal to the target. -/
def findIndexFrom (p : List Nat → Bool) : List (List Nat) → Nat → Option Nat
  | [], _ => none
  | n :: rest, i => if p n then some i else findIndexFrom p rest (i + 1)

/-- The actor lookup of `getActors` (part_001 lines 297-303): the name
index `names` is `top1000Actors`, pushed once per dataset fetch from the
raw `String(item.actor)` values (not normalized); the lookup target is the
NFC-normalization of the anchor text.  A non-negative position yields the
1-based rank `position + 1` handed to `addActorIcon`. -/
def codeActorRank (names : List (List Nat)) (anchor : List Nat) :
    Option Nat :=
  match findIndexFrom (fun n => n == nfcCompose anchor) names 0 with
  | some i => some (i + 1)
  | none => none

/-- Modelled from the spec: the comparison the claim describes —
Unicode-NFC-normalized string equality between the displayed name and the
dataset names, i.e. both sides normalized before comparing. -/
def specActorRank (names : List (List Nat)) (anchor : List Nat) :
    Option Nat :=
  match findIndexFrom (fun n => nfcCompose n == nfcCompose anchor) names 0 with
  | some i => some (i + 1)
  | none => none

/-- The cast loop of `getActors`: each cast anchor, in order, is looked up
in the name index; the entry records the rank of the inline icon appended
to that anchor, or `none` when nothing is appended to it. -/
def annotateCast (names : List (List Nat)) (anchors : List (List Nat)) :
    List (Option Nat) :=
  anchors.map (codeActorRank names)

/-- An uncaught JavaScript error of the load handler: reading
`.parentElement` off the `undefined` result of indexing an empty
`getElementsByClassName` collection throws a `TypeError`. -/
inductive JsError where
  | typeError : JsError
deriving DecidableEq, Repr

/-- A request the load handler issues: one `getData` fetch per film ranking
category, plus the `getActors` fetch. -/
inductive Req where
  | film : Nat → Req
  | actors : Req
deriving DecidableEq, Repr

/-- The page as the identifier read sees it: `none` when no `film-poster`
element exists; `some attr` when it exists, with `attr` the numeric
`data-film-id` value of its parent, or `none` when the attribute is
absent. -/
structure FilmPage where
  filmPoster : Option (Option Int)
deriving DecidableEq, Repr

/-- `parseInt(element.getAttribute("data-film-id"))`: an absent attribute
reads as `null`, which `parseInt` turns into `NaN`; a numeric value parses
to that number. -/
def parseIntAttr : Option Int → JsVal
  | none => JsVal.nan
  | some n => JsVal.num n

/-- The requests the load handler of part_001 issues after the identifier
read: `getData` for categories 1 through 28 in order, then `getActors`. -/
def loadRequests : List Req :=
  (List.range 28).map (fun t => Req.film (t + 1)) ++ [Req.actors]

/-- The load handler of part_001 (lines 15-48) up to its fan-out: read the
film identifier, then unconditionally issue every category fetch with that
identifier and the actor fetch.  When no `film-poster` element exists the
very first line throws an uncaught `TypeError`; nothing in the handler
checks the identifier for `NaN`. -/
def loadHandler (p : FilmPage) : Except JsError (JsVal × List Req) :=
  match p.filmPoster with
  | none => Except.error JsError.typeError
  | some attr => Except.ok (parseIntAttr attr, loadRequests)

/-! Helper lemmas, then one theorem per claim, with counterexamples,
amended statements and witnesses where the claim required correction. -/

theorem scanCallsAux_append (f : Entry → Bool) (l1 l2 : List Entry) (n : Nat) :
    scanCallsAux f (l1 ++ l2) n
      = scanCallsAux f l1 n ++ scanCallsAux f l2 (n + l1.length) := by
  induction l1 generalizing n with
  | nil => simp [scanCallsAux]
  | cons e rest ih =>
      simp [scanCallsAux, ih, Nat.add_comm, Nat.add_assoc, Nat.add_left_comm]

theorem scanCallsAux_of_no_match (f : Entry → Bool) (l : List Entry) (n : Nat)
    (h : ∀ e ∈ l, f e = false) : scanCallsAux f l n = [] := by
  induction l generalizing n with
  | nil => rfl
  | cons e rest ih =>
      have he : f e = false := h e (List.mem_cons_self e rest)
      simp [scanCallsAux, he,
        ih (n + 1) fun x hx => h x (List.mem_cons_of_mem e hx)]

theorem filter_enumFrom_length (f : Entry → Bool) (l : List Entry) (n : Nat) :
    ((List.enumFrom n l).filter (fun p => f p.2)).length
      = (l.filter f).length := by
  induction l generalizing n with
  | nil => rfl
  | cons e rest ih =>
      by_cases hfe : f e = true
      · simp [List.enumFrom, List.filter, hfe, ih]
      · simp only [Bool.not_eq_true] at hfe
        simp [List.enumFrom, List.filter, hfe, ih]

theorem scanCallsAux_enumFrom (f : Entry → Bool) (l : List Entry) (n : Nat) :
    scanCallsAux f l n
      = ((List.enumFrom n l).filter (fun p => f p.2)).map (fun p => p.1 + 1) := by
  induction l generalizing n with
  | nil => rfl
  | cons e rest ih =>
      by_cases hfe : f e = true
      · simp [scanCallsAux, List.enumFrom, List.filter, hfe, ih]
      · simp only [Bool.not_eq_true] at hfe
        simp [scanCallsAux, List.enumFrom, List.filter, hfe, ih]

/-- C1, counterexample.  The claim states that the page-number function both
equals `floor(rank / 100) + 1` and returns `1` for every rank in `1..100`.
At the concrete rank `100` the computation of the code
(`parseInt(100 / 100) + 1`) yields `2`, so the claimed value table is false
at rank `100`. -/
theorem c1_pageOf_counterexample : pageOf 100 = 2 ∧ pageOf 100 ≠ 1 := by
  constructor
  · rfl
  · decide

/-- C1, amended.  The page-number function used in every badge deep link
equals `floor(rank / 100) + 1` and is monotonic non-decreasing in rank; it
returns `1` for every rank in `1..99`, returns `2` for rank `100` (so ranks
that are exact multiples of the page size land one page late), returns `2`
for rank `101`, and returns `3` for rank `200`. -/
theorem c1_pageOf_amended :
    (∀ r : Nat, pageOf r = r / 100 + 1)
      ∧ (∀ r s : Nat, r ≤ s → pageOf r ≤ pageOf s)
      ∧ (∀ r : Nat, 1 ≤ r → r ≤ 99 → pageOf r = 1)
      ∧ pageOf 100 = 2 ∧ pageOf 101 = 2 ∧ pageOf 200 = 3 := by
  refine ⟨fun r => rfl, ?_, ?_, rfl, rfl, rfl⟩
  · intro r s hrs
    exact Nat.add_le_add_right (Nat.div_le_div_right hrs) 1
  · intro r _ hr99
    have : r / 100 = 0 := Nat.div_eq_of_lt (by omega)
    simp [pageOf, this]

/-- C1, witness for the amended theorem: instantiates each hypothesis-bearing
part at concrete ranks. -/
theorem c1_pageOf_amended_witness :
    pageOf 37 ≤ pageOf 181 ∧ pageOf 99 = 1 := by
  exact ⟨c1_pageOf_amended.2.1 37 181 (by decide),
    c1_pageOf_amended.2.2.1 99 (by decide) (by decide)⟩

/-- C3.  For every ranking dataset in which the subject key occurs exactly
once — at zero-based index `l1.length`, i.e. after a prefix `l1` of
non-matching rows and before a suffix `l2` of non-matching rows — the scan
of `getData` invokes badge construction exactly once, with the 1-based rank
`l1.length + 1`.  In particular, for the dataset
`[{"id":10},{"id":20},{"id":30}]` the lookup of `20` yields rank `2`, whose
page number is `1`. -/
theorem c3_findPosition_unique :
    (∀ (l1 l2 : List Entry) (e : Entry) (v : JsVal),
        entryMatches e v = true →
        (∀ x ∈ l1, entryMatches x v = false) →
        (∀ x ∈ l2, entryMatches x v = false) →
        scanCalls (l1 ++ e :: l2) v = [l1.length + 1])
      ∧ scanCalls
          [⟨JsVal.undef, JsVal.num 10⟩, ⟨JsVal.undef, JsVal.num 20⟩,
            ⟨JsVal.undef, JsVal.num 30⟩] (JsVal.num 20) = [2]
      ∧ pageOf 2 = 1 := by
  refine ⟨?_, by decide, rfl⟩
  intro l1 l2 e v he h1 h2
  unfold scanCalls
  rw [scanCallsAux_append]
  rw [scanCallsAux_of_no_match _ l1 0 h1]
  simp only [scanCallsAux, he, if_pos, List.nil_append, Nat.zero_add]
  rw [scanCallsAux_of_no_match _ l2 _ h2]
  simp

/-- C3, witness: the generic part applied to the concrete three-row dataset
of the scenario, with the uniqueness hypotheses discharged by computation. -/
theorem c3_findPosition_unique_witness :
    scanCalls
        ([⟨JsVal.undef, JsVal.num 10⟩] ++ ⟨JsVal.undef, JsVal.num 20⟩ ::
          [⟨JsVal.undef, JsVal.num 30⟩]) (JsVal.num 20)
      = [List.length [(⟨JsVal.undef, JsVal.num 10⟩ : Entry)] + 1] := by
  exact c3_findPosition_unique.1 [⟨JsVal.undef, JsVal.num 10⟩]
    [⟨JsVal.undef, JsVal.num 30⟩] ⟨JsVal.undef, JsVal.num 20⟩ (JsVal.num 20)
    (by decide) (by decide) (by decide)

/-- C9.  For every subject key absent from the dataset, the scan of
`getData` invokes no badge construction at all; the embedding is a total
function, so the miss is a normal negative outcome rather than a thrown
error. -/
theorem c9_findPosition_miss :
    ∀ (out : List Entry) (v : JsVal),
      (∀ e ∈ out, entryMatches e v = false) → scanCalls out v = [] := by
  intro out v h
  exact scanCallsAux_of_no_match _ out 0 h

/-- C9, witness: a concrete dataset not containing the key `42`. -/
theorem c9_findPosition_miss_witness :
    scanCalls [⟨JsVal.undef, JsVal.num 10⟩, ⟨JsVal.num 7, JsVal.undef⟩]
      (JsVal.num 42) = [] := by
  exact c9_findPosition_miss
    [⟨JsVal.undef, JsVal.num 10⟩, ⟨JsVal.num 7, JsVal.undef⟩]
    (JsVal.num 42) (by decide)

/-- C10.  The iteration callback of `getData` ends without returning a
value, so `Array.prototype.find` never receives a truthy result and visits
every entry; the list of badge-construction calls is exactly the list of
matching zero-based indices shifted by one, for the current script
(both-field match) and for the older script (Date-only match) alike.
Consequently the number of calls equals the number of occurrences, and a
dataset holding the identifier at two indices triggers badge construction
once per occurrence, as the concrete duplicate dataset shows. -/
theorem c10_scan_visits_all :
    (∀ (out : List Entry) (v : JsVal),
        scanCalls out v
          = ((out.enum.filter (fun p => entryMatches p.2 v)).map
              (fun p => p.1 + 1)))
      ∧ (∀ (out : List Entry) (v : JsVal),
          scanCallsDate out v
            = ((out.enum.filter (fun p => entryMatchesDate p.2 v)).map
                (fun p => p.1 + 1)))
      ∧ (∀ (out : List Entry) (v : JsVal),
          (scanCalls out v).length
            = (out.filter (fun e => entryMatches e v)).length)
      ∧ scanCalls
          [⟨JsVal.undef, JsVal.num 20⟩, ⟨JsVal.undef, JsVal.num 10⟩,
            ⟨JsVal.undef, JsVal.num 20⟩] (JsVal.num 20) = [1, 3] := by
  refine ⟨?_, ?_, ?_, by decide⟩
  · intro out v
    exact scanCallsAux_enumFrom _ out 0
  · intro out v
    exact scanCallsAux_enumFrom _ out 0
  · intro out v
    unfold scanCalls
    rw [scanCallsAux_enumFrom _ out 0, List.length_map]
    exact filter_enumFrom_length (fun e => entryMatches e v) out 0

theorem foldl_setAttr (l : List (String × String)) (t : String)
    (a s : List (String × String)) (c : List DomNode) :
    l.foldl (fun m kv => setAttr m kv.1 kv.2) (DomNode.element t a s c)
      = DomNode.element t (a ++ l) s c := by
  induction l generalizing a with
  | nil => simp
  | cons kv rest ih =>
      have h1 : setAttr (DomNode.element t a s c) kv.1 kv.2
          = DomNode.element t (a ++ [kv]) s c := by
        simp [setAttr]
      rw [List.foldl_cons, h1, ih (a ++ [kv])]
      simp

theorem foldl_setAttr_img (l : List (String × String)) (x : String) :
    l.foldl (fun m kv => setAttr m kv.1 kv.2) (setAttr (createElement "img") "src" x)
      = DomNode.element "img" (("src", x) :: l) [] [] := by
  have h : setAttr (createElement "img") "src" x
      = DomNode.element "img" [("src", x)] [] [] := rfl
  rw [h, foldl_setAttr]
  simp

/-- C8.  Badge construction is a pure function of rank and display
parameters (the right-hand side below is built from those inputs alone, so
equal inputs yield structurally identical fragments), and the flag-icon
variant produced by `addIcon` is exactly: a `div` of class
`production-statistic` wrapping an anchor whose `href` is the list URL
prefix concatenated with the page number `pageOf ranking`, the anchor
containing an image with the icon URL as `src` followed by the `size`
attribute entries, and then a text node holding the literal rank integer. -/
theorem c8_addIcon_structure :
    ∀ (ranking : Nat) (p : IconParams),
      addIconFragment ranking p
        = DomNode.element "div" [("class", "production-statistic")] []
            [DomNode.element "a"
              [("href", p.list ++ toString (pageOf ranking))]
              [("fontSize", ".92307692rem")]
              [DomNode.element "img" (("src", p.icon) :: p.size)
                [("float", "left"), ("marginLeft", "-1px"),
                  ("marginRight", "3px")] [],
                DomNode.text (toString ranking)]] := by
  intro ranking p
  simp only [addIconFragment]
  rw [foldl_setAttr_img]
  rfl

/-- C2, counterexample.  The claim states that every category checks for an
already-present element of a category marker class before appending.  The
flag-icon insertion path has no such check: on a container already holding
the category-2 badge (as a second annotator run on an already-annotated page
would find it), the `addIcon` insertion body appends a second category-2
badge, so that category is duplicated. -/
theorem c2_reinsertion_counterexample :
    countIconCat 2
        (iconInsertBody [PElem.host, PElem.host, PElem.iconBadge 2 5] 2 5)
      = 2 := by
  decide

/-- C2, amended.  Only the crown category guards reinsertion: whenever an
element of the `-top250` marker class is already present, the crown
insertion body leaves the container unchanged (so a second annotator run
duplicates no crown badge, and at most one crown badge ever accumulates);
the flag-icon insertion paths perform no presence check and append their
badge unconditionally once the container is ready, so a second annotator
run duplicates flag-icon badges. -/
theorem c2_reinsertion_amended :
    (∀ (s : List PElem) (r : Nat),
        s.any isTop250 = true → crownInsertBody s r = s)
      ∧ (∀ (s : List PElem) (r : Nat),
          countCrown s ≤ 1 → countCrown (crownInsertBody s r) ≤ 1)
      ∧ (∀ (s : List PElem) (cat r : Nat),
          1 < s.length → iconInsertBody s cat r = s ++ [PElem.iconBadge cat r]) := by
  refine ⟨?_, ?_, ?_⟩
  · intro s r h
    unfold crownInsertBody
    rw [h]
    simp
  · intro s r h
    unfold crownInsertBody
    by_cases h1 : 1 < s.length
    · rw [if_pos h1]
      by_cases h2 : s.any isTop250 = true
      · rw [if_pos h2]
        exact h
      · simp only [Bool.not_eq_true] at h2
        rw [if_neg (by simp [h2])]
        have hnil : List.filter isTop250 s = [] := by
          rw [List.filter_eq_nil_iff]
          intro e he
          have := List.any_eq_false.mp h2 e he
          simpa using this
        have : countCrown s = 0 := by
          unfold countCrown
          rw [hnil]
          rfl
        unfold countCrown at *
        rw [List.filter_append]
        simp [this, isTop250]
    · rw [if_neg h1]
      exact h
  · intro s cat r h
    unfold iconInsertBody
    rw [if_pos h]

/-- C2, witness for the amended theorem: concrete containers for each
hypothesis-bearing part. -/
theorem c2_reinsertion_amended_witness :
    crownInsertBody [PElem.host, PElem.crownBadge 3] 3
        = [PElem.host, PElem.crownBadge 3]
      ∧ countCrown (crownInsertBody [PElem.host, PElem.host] 3) ≤ 1
      ∧ iconInsertBody [PElem.host, PElem.host] 4 7
          = [PElem.host, PElem.host] ++ [PElem.iconBadge 4 7] := by
  exact ⟨c2_reinsertion_amended.1 [PElem.host, PElem.crownBadge 3] 3 (by decide),
    c2_reinsertion_amended.2.1 [PElem.host, PElem.host] 3 (by decide),
    c2_reinsertion_amended.2.2 [PElem.host, PElem.host] 4 7 (by decide)⟩

theorem count_stepNode_le (b : Nat) (guard : List Nat → Bool) (s : MState)
    (n : BNode) (h : (s.container.count b) ≤ 1) :
    ((stepNode b guard s n).container.count b) ≤ 1 := by
  cases n with
  | other => exact h
  | element =>
      unfold stepNode
      by_cases h1 : 1 < s.container.length
      · rw [if_pos h1]
        by_cases hg : guard s.container = true
        · simp only [hg, if_pos]
          rw [List.count_append, List.count_erase_self]
          have hb : List.count b [b] = 1 := by simp
          rw [hb]
          omega
        · simp only [Bool.not_eq_true] at hg
          simpa [hg] using h
      · rw [if_neg h1]
        exact h

theorem count_processBatch_le (b : Nat) (guard : List Nat → Bool)
    (batch : List BNode) (s : MState) (h : (s.container.count b) ≤ 1) :
    ((processBatch b guard s batch).container.count b) ≤ 1 := by
  induction batch generalizing s with
  | nil => exact h
  | cons n rest ih =>
      exact ih (stepNode b guard s n) (count_stepNode_le b guard s n h)

theorem stepNode_connected_eq (b : Nat) (guard : List Nat → Bool) (s : MState)
    (n : BNode) (h : (stepNode b guard s n).connected = true) :
    stepNode b guard s n = s := by
  cases n with
  | other => rfl
  | element =>
      unfold stepNode at *
      by_cases h1 : 1 < s.container.length
      · rw [if_pos h1] at h
        simp at h
      · rw [if_neg h1]

theorem processBatch_connected_eq (b : Nat) (guard : List Nat → Bool)
    (batch : List BNode) (s : MState)
    (h : (processBatch b guard s batch).connected = true) :
    processBatch b guard s batch = s := by
  induction batch generalizing s with
  | nil => rfl
  | cons n rest ih =>
      have hrest : processBatch b guard s (n :: rest)
          = processBatch b guard (stepNode b guard s n) rest := rfl
      rw [hrest] at h ⊢
      have hstep := ih (stepNode b guard s n) h
      rw [hstep] at h ⊢
      exact stepNode_connected_eq b guard s n h

theorem runBatches_disconnected (b : Nat) (guard : List Nat → Bool)
    (s : MState) (batches : List (List BNode)) (h : s.connected = false) :
    runBatches b guard s batches = s := by
  induction batches with
  | nil => rfl
  | cons batch rest ih =>
      unfold runBatches
      rw [h]
      simpa using ih

theorem count_runBatches_le (b : Nat) (guard : List Nat → Bool)
    (batches : List (List BNode)) (s : MState)
    (h : (s.container.count b) ≤ 1) :
    ((runBatches b guard s batches).container.count b) ≤ 1 := by
  induction batches generalizing s with
  | nil => exact h
  | cons batch rest ih =>
      unfold runBatches
      by_cases hc : s.connected = true
      · rw [hc]
        simp only [if_pos]
        exact ih _ (count_processBatch_le b guard batch s h)
      · simp only [Bool.not_eq_true] at hc
        rw [hc]
        simpa using ih s h

/-- C5.  For every badge node, readiness guard (covering both the plain
`addIcon` guard and the crown guard with its extra class check), initial
state and sequence of mutation batches: (i) the badge occurs at most once
in the container throughout, since `appendChild` of the same node moves
rather than copies it, so insertion happens at most once per instance;
(ii) once the observer is disconnected, no later mutation batch changes the
state, so no further insertions are issued; (iii) whenever a callback
invocation changes the container at all (in particular when it performs the
first insertion), the observer leaves that invocation disconnected. -/
theorem c5_deferredMount_once :
    ∀ (b : Nat) (guard : List Nat → Bool) (s : MState)
      (batches : List (List BNode)),
      ((s.container.count b) ≤ 1 →
        ((runBatches b guard s batches).container.count b) ≤ 1)
      ∧ (s.connected = false → runBatches b guard s batches = s)
      ∧ (∀ batch : List BNode,
          (processBatch b guard s batch).container ≠ s.container →
          (processBatch b guard s batch).connected = false) := by
  intro b guard s batches
  refine ⟨fun h => count_runBatches_le b guard batches s h,
    fun h => runBatches_disconnected b guard s batches h, ?_⟩
  intro batch hne
  by_cases hc : (processBatch b guard s batch).connected = true
  · exact absurd (congrArg MState.container
      (processBatch_connected_eq b guard batch s hc)) hne
  · simpa using hc

/-- C5, witness: a concrete instance — badge node `9`, the plain `addIcon`
guard, a ready two-child container — run through one element-bearing batch,
with each hypothesis discharged by computation. -/
theorem c5_deferredMount_once_witness :
    ((runBatches 9 (fun _ => true) ⟨[1, 2], true⟩
        [[BNode.element]]).container.count 9) ≤ 1
      ∧ runBatches 9 (fun _ => true) ⟨[1, 2], false⟩ [[BNode.element]]
          = ⟨[1, 2], false⟩
      ∧ (processBatch 9 (fun _ => true) ⟨[1, 2], true⟩
          [BNode.element]).connected = false := by
  refine ⟨(c5_deferredMount_once 9 (fun _ => true) ⟨[1, 2], true⟩
      [[BNode.element]]).1 (by decide),
    (c5_deferredMount_once 9 (fun _ => true) ⟨[1, 2], false⟩
      [[BNode.element]]).2.1 rfl,
    (c5_deferredMount_once 9 (fun _ => true) ⟨[1, 2], true⟩
      [[BNode.element]]).2.2 [BNode.element] (by decide)⟩

/-- C4.  For every assignment of fetch outcomes to categories and every
failing category `x`: the failing category contributes no badge calls (its
scan never runs); every other category is entirely unaffected by what
happened to `x` (replacing the outcome of `x` by anything changes nothing
elsewhere); and every other category that succeeded runs its scan to
completion, producing exactly the scan result of its own dataset.  The
embedding of `categoryCalls` is a total function, so no failure surfaces as
a throw. -/
theorem c4_category_isolation :
    ∀ (oracle : Nat → Except FetchErr (List Entry)) (v : JsVal) (x : Nat)
      (err : FetchErr),
      oracle x = Except.error err →
      categoryCalls oracle v x = []
        ∧ (∀ (oracle' : Nat → Except FetchErr (List Entry)) (t : Nat),
            t ≠ x → (∀ u, u ≠ x → oracle' u = oracle u) →
            categoryCalls oracle' v t = categoryCalls oracle v t)
        ∧ (∀ (t : Nat) (out : List Entry), oracle t = Except.ok out →
            categoryCalls oracle v t = scanCalls out v) := by
  intro oracle v x err hx
  refine ⟨?_, ?_, ?_⟩
  · unfold categoryCalls
    rw [hx]
  · intro oracle' t ht hagree
    unfold categoryCalls
    rw [hagree t ht]
  · intro t out hout
    unfold categoryCalls
    rw [hout]

/-- C4, witness: with the concrete outcomes of `oracleX`, the failing
category 2 yields no calls while categories 1 and 3 still produce their
badge call at rank 1. -/
theorem c4_category_isolation_witness :
    categoryCalls oracleX (JsVal.num 7) 2 = []
      ∧ categoryCalls oracleX (JsVal.num 7) 1
          = scanCalls [⟨JsVal.undef, JsVal.num 7⟩] (JsVal.num 7)
      ∧ categoryCalls oracleX (JsVal.num 7) 3
          = scanCalls [⟨JsVal.undef, JsVal.num 7⟩] (JsVal.num 7) := by
  refine ⟨(c4_category_isolation oracleX (JsVal.num 7) 2 FetchErr.network
      rfl).1, ?_, ?_⟩
  · exact (c4_category_isolation oracleX (JsVal.num 7) 2 FetchErr.network
      rfl).2.2 1 [⟨JsVal.undef, JsVal.num 7⟩] rfl
  · exact (c4_category_isolation oracleX (JsVal.num 7) 2 FetchErr.network
      rfl).2.2 3 [⟨JsVal.undef, JsVal.num 7⟩] rfl

theorem findIndexFrom_congr (p q : List Nat → Bool) (l : List (List Nat))
    (h : ∀ x ∈ l, p x = q x) :
    ∀ i, findIndexFrom p l i = findIndexFrom q l i := by
  induction l with
  | nil => intro i; rfl
  | cons n rest ih =>
      intro i
      have hn : p n = q n := h n (List.mem_cons_self n rest)
      unfold findIndexFrom
      rw [hn, ih fun x hx => h x (List.mem_cons_of_mem n hx)]

/-- C6, counterexample.  The claim states that the lookup uses
NFC-normalized string equality against the dataset names.  The code
normalizes only the anchor side and compares against the raw dataset
names: for the dataset whose second name is the decomposed sequence
`e` + combining acute (NFC-equal to the precomposed anchor text), the code
finds no match, while the comparison the claim describes finds rank 2. -/
theorem c6_actor_nfc_counterexample :
    codeActorRank [[78, 97, 109, 101, 32, 65], [101, 769]] [233] = none
      ∧ nfcCompose [101, 769] = nfcCompose [233]
      ∧ specActorRank [[78, 97, 109, 101, 32, 65], [101, 769]] [233]
          = some 2 := by
  refine ⟨?_, ?_, ?_⟩ <;> decide

/-- C6, amended.  Actor lookup compares the NFC-normalization of the cast
anchor text by strict equality to the raw dataset names of a name index
built once per dataset fetch; the dataset side is not normalized, so this
agrees with NFC-normalized equality exactly on datasets whose names are
already NFC-normal — as they are in the ASCII scenario: for actor dataset
`["Name A","Name B"]` and cast anchors `["Other","Name B"]`, an inline icon
with rank 2 is appended to the second anchor and to no other. -/
theorem c6_actor_nfc_amended :
    (∀ (names : List (List Nat)) (anchor : List Nat),
        (∀ n ∈ names, nfcCompose n = n) →
        codeActorRank names anchor = specActorRank names anchor)
      ∧ annotateCast [[78, 97, 109, 101, 32, 65], [78, 97, 109, 101, 32, 66]]
          [[79, 116, 104, 101, 114], [78, 97, 109, 101, 32, 66]]
          = [none, some 2] := by
  constructor
  · intro names anchor h
    unfold codeActorRank specActorRank
    rw [findIndexFrom_congr (fun n => n == nfcCompose anchor)
      (fun n => nfcCompose n == nfcCompose anchor) names
      (fun x hx => by
        show (x == nfcCompose anchor) = (nfcCompose x == nfcCompose anchor)
        rw [h x hx]) 0]
  · decide

/-- C6, witness for the amended theorem: the agreement part applied to the
ASCII scenario dataset, whose names are NFC-normal by computation. -/
theorem c6_actor_nfc_amended_witness :
    codeActorRank [[78, 97, 109, 101, 32, 66]] [78, 97, 109, 101, 32, 66]
      = specActorRank [[78, 97, 109, 101, 32, 66]]
          [78, 97, 109, 101, 32, 66] := by
  exact c6_actor_nfc_amended.1 [[78, 97, 109, 101, 32, 66]]
    [78, 97, 109, 101, 32, 66] (by decide)

theorem jsStrictEq_nan_right (x : JsVal) : jsStrictEq x JsVal.nan = false := by
  cases x <;> rfl

/-- C7, counterexample.  The claim states that an absent element or absent
attribute aborts the pass silently, with no uncaught error and no lookups.
Both halves fail on the code at concrete pages: with the element present
but the attribute absent the handler proceeds and issues all 29 fetches
(28 film lookups and the actor lookup) with a `NaN` identifier, and with
the element absent the handler throws an uncaught `TypeError` rather than
aborting silently. -/
theorem c7_identifier_read_counterexample :
    loadHandler ⟨some none⟩ = Except.ok (JsVal.nan, loadRequests)
      ∧ loadRequests.length = 29
      ∧ loadRequests ≠ []
      ∧ loadHandler ⟨none⟩ = Except.error JsError.typeError := by
  refine ⟨rfl, ?_, ?_, rfl⟩ <;> decide

/-- C7, amended.  If the `film-poster` element is absent, the identifier
read throws an uncaught `TypeError` that aborts the pass before any lookup
(not silently); if only the data attribute is absent, the identifier parses
to `NaN` and the pass still issues every category fetch and the actor
fetch — but a `NaN` identifier matches no dataset row under strict
equality, so no film badge can result, while the actor path is unaffected
by the identifier. -/
theorem c7_identifier_read_amended :
    (∀ p : FilmPage, p.filmPoster = none →
        loadHandler p = Except.error JsError.typeError)
      ∧ loadHandler ⟨some none⟩ = Except.ok (JsVal.nan, loadRequests)
      ∧ Req.actors ∈ loadRequests
      ∧ (∀ out : List Entry, scanCalls out JsVal.nan = []) := by
  refine ⟨?_, rfl, by decide, ?_⟩
  · intro p hp
    unfold loadHandler
    rw [hp]
  · intro out
    refine scanCallsAux_of_no_match _ out 0 ?_
    intro e _
    unfold entryMatches
    rw [jsStrictEq_nan_right, jsStrictEq_nan_right]
    rfl

/-- C7, witness for the amended theorem: the element-absent page and a
concrete dataset scanned with the `NaN` identifier. -/
theorem c7_identifier_read_amended_witness :
    loadHandler ⟨none⟩ = Except.error JsError.typeError
      ∧ scanCalls [⟨JsVal.num 3, JsVal.num 4⟩] JsVal.nan = [] := by
  exact ⟨c7_identifier_read_amended.1 ⟨none⟩ rfl,
    c7_identifier_read_amended.2.2.2 [⟨JsVal.num 3, JsVal.num 4⟩]⟩
